import Mathlib

/-!
# Verification of the KTU API server (`server.js`)

A shallow embedding in Lean 4 of the scraping/orchestration logic of the
KTU API server. HTML documents are represented by the values that the
cheerio selector expressions in the source produce (cell texts, element
texts, selections as lists); every transformation applied to those values
(`trim`, `substring`, `indexOf`, `parseInt`, `parseFloat`, `toFixed`,
`toUpperCase`, regular-expression tests, JavaScript's `||` on falsy
values) is modelled explicitly below so that each route handler becomes a
total Lean function on such documents.

Numbers that the server manipulates are exact decimals (scraped decimal
strings, integer counts, and arithmetic on them), so they are modelled by
integers and by mantissa/scale pairs `(m, s)` standing for `m / 10^s`;
`toFixed(2)` is modelled over exact fractions with ties rounded to the
larger value, matching its specification on the values this server feeds
it (finite exact decimals).
-/

namespace KTU

/-! ## JavaScript string and number primitives -/

/-- JavaScript whitespace test used by `String.prototype.trim`. -/
def jsIsSpace (c : Char) : Bool :=
  c = ' ' || c = '\t' || c = '\n' || c = '\r' || c = '\x0b' || c = '\x0c'

/-- `trim` on a character list: drop whitespace from both ends. -/
def trimList (cs : List Char) : List Char :=
  ((cs.dropWhile jsIsSpace).reverse.dropWhile jsIsSpace).reverse

/-- JS `String.prototype.trim`. -/
def jsTrim (s : String) : String :=
  String.mk (trimList s.toList)

/-- Uppercase a single ASCII character (JS `toUpperCase` on the ASCII range). -/
def upChar (c : Char) : Char :=
  if 97 ≤ c.toNat && c.toNat ≤ 122 then Char.ofNat (c.toNat - 32) else c

/-- Lowercase a single ASCII character (JS `toLowerCase` on the ASCII range). -/
def downChar (c : Char) : Char :=
  if 65 ≤ c.toNat && c.toNat ≤ 90 then Char.ofNat (c.toNat + 32) else c

/-- JS `String.prototype.toUpperCase` (ASCII). -/
def jsToUpper (s : String) : String :=
  String.mk (s.toList.map upChar)

/-- JS `String.prototype.toLowerCase` (ASCII). -/
def jsToLower (s : String) : String :=
  String.mk (s.toList.map downChar)

/-- Does `pat` occur as a contiguous run inside `l`? -/
def containsSeq (pat : List Char) : List Char → Bool
  | [] => pat.isEmpty
  | c :: rest => pat.isPrefixOf (c :: rest) || containsSeq pat rest

/-- The regular-expression test `/total/i.test(s)`: a case-insensitive
substring search for `total`. -/
def testTotalCI (s : String) : Bool :=
  containsSeq "total".toList (s.toList.map downChar)

/-- Index of the first occurrence of `c`. -/
def idxOfAux (c : Char) : List Char → Option Nat
  | [] => none
  | d :: rest => if d = c then some 0 else (idxOfAux c rest).map (· + 1)

/-- JS `String.prototype.indexOf` for a single character: the 0-based
index of the first occurrence, `-1` when absent. -/
def jsIndexOf (s : String) (c : Char) : Int :=
  match idxOfAux c s.toList with
  | some n => (n : Int)
  | none => -1

/-- JS `String.prototype.substring s a b`: both arguments are clamped to
`[0, length]` and swapped when out of order, then the slice is taken. -/
def jsSubstring (s : String) (a b : Int) : String :=
  let len : Int := (s.toList.length : Int)
  let a' := (min (max a 0) len).toNat
  let b' := (min (max b 0) len).toNat
  String.mk ((s.toList.drop (min a' b')).take (max a' b' - min a' b'))

/-- Value of a decimal digit character. -/
def digitVal (c : Char) : Nat := c.toNat - 48

/-- Read a leading run of decimal digits as a number; `none` when the run
is empty. -/
def leadNat (cs : List Char) : Option Nat :=
  let ds := cs.takeWhile Char.isDigit
  if ds.isEmpty then none else some (ds.foldl (fun a c => 10 * a + digitVal c) 0)

/-- JS `parseInt(s)` (radix 10, as the server always receives decimal
cell text): skip leading whitespace, read an optional sign and then the
longest leading digit run, ignoring any trailing garbage; `none` models
`NaN`. -/
def parseIntJS (s : String) : Option Int :=
  match s.toList.dropWhile jsIsSpace with
  | '-' :: rest => (leadNat rest).map (fun n => -(n : Int))
  | '+' :: rest => (leadNat rest).map (fun n => (n : Int))
  | cs => (leadNat cs).map (fun n => (n : Int))

/-- JS `parseFloat(s)` on the plain decimal strings this server scrapes:
skip leading whitespace, read an optional sign, an integer digit run, and
an optional fractional digit run after a dot, ignoring trailing garbage;
the result is a mantissa/scale pair `(m, s)` standing for `m / 10^s`, and
`none` models `NaN` (no digit at all). -/
def parseFloatJS (s : String) : Option (Int × Nat) :=
  let core : List Char → Option (Int × Nat) := fun cs =>
    let ip := cs.takeWhile Char.isDigit
    let rest := cs.dropWhile Char.isDigit
    let fp := match rest with
      | '.' :: tail => tail.takeWhile Char.isDigit
      | _ => []
    if ip.isEmpty && fp.isEmpty then none
    else
      let mant := (ip ++ fp).foldl (fun a c => 10 * a + digitVal c) 0
      some ((mant : Int), fp.length)
  match s.toList.dropWhile jsIsSpace with
  | '-' :: rest => (core rest).map (fun p => (-p.1, p.2))
  | '+' :: rest => core rest
  | cs => core cs

/-- JS `parseInt(v) || d`: both `NaN` and `0` are falsy, so the default
`d` replaces the parse result in each of those cases. -/
def jsFalsyOr (o : Option Int) (d : Int) : Int :=
  match o with
  | some n => if n = 0 then d else n
  | none => d

/-- JS `a || b` on strings: the empty string is falsy. -/
def jsFalsyOrStr (a b : String) : String :=
  if a = "" then b else a

/-- Two-digit zero-padded rendering of `r < 100`. -/
def pad2 (r : Nat) : String :=
  (if r < 10 then "0" else "") ++ toString r

/-- `x.toFixed(2)` for the exact fraction `num / den`: round `100·x` to
the nearest integer, ties to the larger value, and print with exactly two
decimals. The sign is normalised into the numerator first. -/
def toFixed2Of (num den : Int) : String :=
  let num := if den < 0 then -num else num
  let den := if den < 0 then -den else den
  let n : Int := Int.fdiv (200 * num + den) (2 * den)
  if n < 0 then
    "-" ++ toString (n.natAbs / 100) ++ "." ++ pad2 (n.natAbs % 100)
  else
    toString (n.toNat / 100) ++ "." ++ pad2 (n.toNat % 100)

/-- JS `String.prototype.replace(pat, repl)` with a plain-string pattern:
replace only the first occurrence. -/
def replaceFirstAux (pat repl : List Char) : List Char → List Char
  | [] => []
  | c :: rest =>
    if pat.isPrefixOf (c :: rest) then repl ++ (c :: rest).drop pat.length
    else c :: replaceFirstAux pat repl rest

/-- JS `s.replace(pat, repl)` (first occurrence only). An empty pattern
is never produced by the server, so it is treated as matching nowhere. -/
def replaceFirst (s pat repl : String) : String :=
  if pat.toList.isEmpty then s
  else String.mk (replaceFirstAux pat.toList repl.toList s.toList)

/-- The global regex replacement applied by the semester-results
extractor to course names: scan left to right, replacing each literal
`&nbsp;` sequence and each hyphen by one space (alternation tried at
every position, `g` flag). -/
def replaceNbspHyphen : List Char → List Char
  | [] => []
  | '&' :: 'n' :: 'b' :: 's' :: 'p' :: ';' :: rest => ' ' :: replaceNbspHyphen rest
  | '-' :: rest => ' ' :: replaceNbspHyphen rest
  | c :: rest => c :: replaceNbspHyphen rest

/-- ASCII letter test, both cases (the character class `[A-Z]` under the
`i` flag). -/
def isAsciiLetter (c : Char) : Bool :=
  (65 ≤ c.toNat && c.toNat ≤ 90) || (97 ≤ c.toNat && c.toNat ≤ 122)

/-- ASCII digit test (`\d`). -/
def isAsciiDigit (c : Char) : Bool :=
  48 ≤ c.toNat && c.toNat ≤ 57

/-- The register-number format check
`/^[A-Z]{3}\d{2}[A-Z]{2}\d{3}$/i.test(s)`: exactly 3 letters, 2 digits,
2 letters, 3 digits, case-insensitive. -/
def regnoValid (s : String) : Bool :=
  let cs := s.toList
  cs.length = 10 &&
  (cs.take 3).all isAsciiLetter &&
  ((cs.drop 3).take 2).all isAsciiDigit &&
  ((cs.drop 5).take 2).all isAsciiLetter &&
  ((cs.drop 7).take 3).all isAsciiDigit

/-- JS `String.prototype.lastIndexOf` for a single character. -/
def jsLastIndexOf (s : String) (c : Char) : Int :=
  match idxOfAux c s.toList.reverse with
  | some n => ((s.toList.length - 1 - n : Nat) : Int)
  | none => -1

/-! ## Data model (`server.js`, profile route lines 148-156 and friends) -/

structure PersonalInfo where
  name : String
  admissionNo : String
  gender : String
  dob : String
  branch : String
  semester : String
  batch : String
  college : String
deriving DecidableEq, Repr

structure AcademicInfo where
  cgpa : String
  sgpa : String
  percentage : String
deriving DecidableEq, Repr

structure AttSubject where
  subject : String
  attended : Int
  total : Int
  percentage : String
deriving DecidableEq, Repr

structure AttendanceInfo where
  overall : String
  subjects : List AttSubject
deriving DecidableEq, Repr

structure BreakdownEntry where
  category : String
  points : Int
deriving DecidableEq, Repr

structure ActivityPoints where
  total : String
  required : String
  status : String
  breakdown : List BreakdownEntry
deriving DecidableEq, Repr

structure Credits where
  earned : String
  required : String
  courseCredits : String
  activityCredits : String
deriving DecidableEq, Repr

structure SubjectResult where
  code : String
  name : String
  credits : String
  grade : String
  gradePoint : String
deriving DecidableEq, Repr

structure SemesterResult where
  semester : String
  subjects : List SubjectResult
deriving DecidableEq, Repr

structure StudentProfile where
  registerNo : String
  personalInfo : PersonalInfo
  academicInfo : AcademicInfo
  attendance : AttendanceInfo
  activityPoints : ActivityPoints
  credits : Credits
  semesterResults : List SemesterResult
deriving DecidableEq, Repr

/-! ## The scraped profile document

A `PageDoc` holds, for each cheerio selection the profile route reads,
the raw text that selection produces (empty selections produce `""`,
matching cheerio). `listItems` holds, per `.list-group-item`, the text of
its `.view-badge` child and the text of its direct text nodes; the
`...ParentText`/`...BadgeText` pairs hold the text of a labelled parent
element and of its `.view-badge` child; `sgpaCells` holds the trimmed
texts of the curriculum `td[rowspan]` cells; `activityRows`,
`creditRows` and the rows of `semPanels` hold each row's `td` texts. -/

structure ListItem where
  badge : String
  direct : String
deriving DecidableEq, Repr

structure SemPanel where
  title : String
  rows : List (List String)
deriving DecidableEq, Repr

structure PageDoc where
  profileTitle : String
  listItems : List ListItem
  panelTitle : String
  branchParentText : String
  branchBadgeText : String
  semParentText : String
  semBadgeText : String
  cgpaParentText : String
  cgpaBadgeText : String
  sgpaCells : List String
  activityRows : List (List String)
  creditRows : List (List String)
  semPanels : List SemPanel
deriving DecidableEq, Repr

/-- The empty document: every selection is empty. -/
def emptyDoc : PageDoc :=
  ⟨"", [], "", "", "", "", "", "", "", [], [], [], []⟩

/-! ## Extraction engine: profile route (lines 158-277) -/

/-- Lines 159-161: split the `.profile-title` text into name and
admission number on its parenthesis boundaries, via `substring` and
`indexOf` (both `-1` based when absent). -/
def personalNameAdmission (raw : String) : String × String :=
  let t := jsTrim raw
  (jsTrim (jsSubstring t 0 (jsIndexOf t '(')),
   jsTrim (jsSubstring t (jsIndexOf t '(' + 1) (jsIndexOf t ')')))

/-- Lines 163-173: scan the `.list-group-item` rows; each row whose
badge text is `Gender` / `Date of Birth` overwrites the corresponding
value with the row's direct text content. -/
def scanListItems (items : List ListItem) : String × String :=
  items.foldl (fun gd it =>
    let badge := jsTrim it.badge
    let gd := if badge = "Gender" then (jsTrim it.direct, gd.2) else gd
    if badge = "Date of Birth" then (gd.1, jsTrim it.direct) else gd) ("", "")

/-- Lines 175-176: the college is the segment of the first
`.panel-title` text between its last `(` and last `)` (no further
trim). -/
def collegeOf (panelRaw : String) : String :=
  let t := jsTrim panelRaw
  jsSubstring t (jsLastIndexOf t '(' + 1) (jsLastIndexOf t ')')

/-- Lines 178-184: the label-subtract pattern — the labelled parent's
text with its badge text removed (first occurrence), trimmed. -/
def labelValue (parentText badgeText : String) : String :=
  jsTrim (replaceFirst parentText badgeText "")

/-- Lines 198-200: CGPA via the label-subtract pattern plus removal of
the first `:`. -/
def cgpaOf (parentText badgeText : String) : String :=
  jsTrim (replaceFirst (replaceFirst parentText badgeText "") ":" "")

/-- Lines 202-203: SGPA scans the (already trimmed) rowspan cells in
reverse document order and keeps the first that parses as a number,
defaulting to `""`. -/
def sgpaOf (cells : List String) : String :=
  (((cells.map jsTrim).reverse.find? (fun t => (parseFloatJS t).isSome)).getD "")

/-- Lines 205-207: `academicInfo` with the derived percentage. A cgpa
value `c = m / 10^s` gives `c*10 - 2.5 = (20m - 5·10^s) / (2·10^s)`,
rendered by `toFixed(2)` with a trailing percent sign; a cgpa that does
not parse (`NaN`) leaves the percentage empty. -/
def academicInfoOf (cgpa sgpaText : String) : AcademicInfo :=
  let info : AcademicInfo := ⟨jsFalsyOrStr cgpa "", jsFalsyOrStr sgpaText "", ""⟩
  match parseFloatJS info.cgpa with
  | some p =>
    { info with percentage := toFixed2Of (20 * p.1 - 5 * (10 : Int) ^ p.2) (2 * (10 : Int) ^ p.2) ++ "%" }
  | none => info

/-- Lines 216-226: the activity-points breakdown — rows with ≥ 2 cells
whose trimmed first and second cells are non-empty and whose first cell
does not match `/total/i` contribute a category/points pair (points via
`parseInt(v) || 0`). -/
def activityBreakdown (rows : List (List String)) : List BreakdownEntry :=
  rows.foldl (fun acc cells =>
    if 2 ≤ cells.length then
      let key := jsTrim (cells.getD 0 "")
      let val := jsTrim (cells.getD 1 "")
      if key ≠ "" && val ≠ "" && !(testTotalCI key) then
        acc ++ [⟨key, jsFalsyOr (parseIntJS val) 0⟩]
      else acc
    else acc) []

/-- Line 227: the trimmed text of the last cell of the last activity
row (`""` on an empty selection, as in cheerio). -/
def lastCellText (rows : List (List String)) : String :=
  jsTrim ((((rows.getLast?).getD []).getLast?).getD "")

/-- Line 228: `parseInt(totalPointsText) || sum-of-breakdown` — note
that JavaScript's `||` also takes the fallback when the parse result is
the (falsy) number `0`. -/
def activityTotal (rows : List (List String)) : Int :=
  jsFalsyOr (parseIntJS (lastCellText rows))
    ((activityBreakdown rows).foldl (fun a b => a + b.points) 0)

/-- Lines 215-230: the full activity-points record. -/
def activityPointsOf (rows : List (List String)) : ActivityPoints :=
  { total := toString (activityTotal rows)
    required := "100"
    status := if 100 ≤ activityTotal rows then "Completed" else "Pending"
    breakdown := activityBreakdown rows }

/-- Exact-decimal addition on mantissa/scale pairs. -/
def decAdd (a b : Int × Nat) : Int × Nat :=
  let s := max a.2 b.2
  (a.1 * (10 : Int) ^ (s - a.2) + b.1 * (10 : Int) ^ (s - b.2), s)

/-- Render an exact decimal the way JS renders the corresponding
number: no fractional part when it is zero, trailing fractional zeros
stripped otherwise. -/
def renderDec (p : Int × Nat) : String :=
  let sign := if p.1 < 0 then "-" else ""
  let m := p.1.natAbs
  let ip := m / 10 ^ p.2
  let fr := m % 10 ^ p.2
  if fr = 0 then sign ++ toString ip
  else
    let ds := (toString fr).toList
    let padded := List.replicate (p.2 - ds.length) '0' ++ ds
    sign ++ toString ip ++ "." ++ String.mk (padded.reverse.dropWhile (· = '0')).reverse

/-- Lines 234-241: earned credits — the sum of the 9th cell of each
curriculum row over the rows where it parses as a number. -/
def earnedCredits (rows : List (List String)) : Int × Nat :=
  rows.foldl (fun acc cells =>
    match parseFloatJS (jsTrim (cells.getD 8 "")) with
    | some c => decAdd acc c
    | none => acc) (0, 0)

/-- Lines 243-248: the credits record (fixed constants apart from
`earned`). -/
def creditsOf (rows : List (List String)) : Credits :=
  ⟨renderDec (earnedCredits rows), "162", "160", "2"⟩

/-- Uppercase ASCII letter test (`[A-Z]`, no `i` flag). -/
def isUpperLetter (c : Char) : Bool :=
  65 ≤ c.toNat && c.toNat ≤ 90

/-- Does the course-code pattern (3 uppercase letters, 3 digits) match
at the head of the list? -/
def matchesCodeAt (cs : List Char) : Bool :=
  match cs with
  | a :: b :: c :: d :: e :: f :: _ =>
    isUpperLetter a && isUpperLetter b && isUpperLetter c &&
    isAsciiDigit d && isAsciiDigit e && isAsciiDigit f
  | _ => false

/-- Index of the leftmost course-code match, as the regex engine finds
it. -/
def findCodeIdx : List Char → Option Nat
  | [] => none
  | c :: rest =>
    if matchesCodeAt (c :: rest) then some 0
    else (findCodeIdx rest).map (· + 1)

/-- Lines 254-273: the subjects of one semester panel. Rows with ≥ 9
cells yield a subject whose code is the first course-code match of the
combined course cell; the name is the remainder of that cell after the
match (the source's `indexOf(code) + code.length` equals the match
index + 6, since an earlier occurrence of the matched string would
itself be an earlier match), with `&nbsp;`/hyphens replaced by spaces
and trimmed; rows whose code or name comes out empty are dropped. -/
def semesterSubjects (rows : List (List String)) : List SubjectResult :=
  rows.foldl (fun acc cells =>
    if 9 ≤ cells.length then
      let courseText := jsTrim (cells.getD 1 "")
      let cn :=
        match findCodeIdx courseText.toList with
        | some i =>
          (String.mk ((courseText.toList.drop i).take 6),
           jsTrim (String.mk (replaceNbspHyphen (courseText.toList.drop (i + 6)))))
        | none => ("", courseText)
      let subj : SubjectResult :=
        ⟨cn.1, cn.2, jsTrim (cells.getD 2 ""), jsTrim (cells.getD 7 ""), ""⟩
      if subj.code ≠ "" && subj.name ≠ "" then acc ++ [subj] else acc
    else acc) []

/-- Lines 251-277: panels with a non-empty subject list become semester
results, labelled by the panel heading. -/
def semesterResultsOf (panels : List SemPanel) : List SemesterResult :=
  panels.foldl (fun acc p =>
    let subs := semesterSubjects p.rows
    if subs ≠ [] then acc ++ [⟨jsTrim p.title, subs⟩] else acc) []

/-- Lines 146-279: the full profile built from a scraped document; the
attendance block is left empty by the profile route (lines 210-212). -/
def buildProfile (regNo : String) (doc : PageDoc) : StudentProfile :=
  let nm := personalNameAdmission doc.profileTitle
  let gd := scanListItems doc.listItems
  { registerNo := jsToUpper regNo
    personalInfo :=
      ⟨nm.1, nm.2, gd.1, gd.2,
       labelValue doc.branchParentText doc.branchBadgeText,
       labelValue doc.semParentText doc.semBadgeText, "",
       collegeOf doc.panelTitle⟩
    academicInfo := academicInfoOf (cgpaOf doc.cgpaParentText doc.cgpaBadgeText) (sgpaOf doc.sgpaCells)
    attendance := ⟨"", []⟩
    activityPoints := activityPointsOf doc.activityRows
    credits := creditsOf doc.creditRows
    semesterResults := semesterResultsOf doc.semPanels }

/-! ## Extraction engine: attendance route (lines 370-385) -/

/-- Lines 373-382: every table row after the first with ≥ 4 cells
yields a subject record; attended/total via `parseInt(..) || 0`; the
percentage is the 4th cell's trimmed text when non-empty, else the
computed ratio (or `0%` when the total is the falsy `0`). -/
def attendanceSubjects (rows : List (List String)) : List AttSubject :=
  rows.enum.foldl (fun acc p =>
    if 4 ≤ p.2.length && 0 < p.1 then
      let attended := jsFalsyOr (parseIntJS (jsTrim (p.2.getD 1 ""))) 0
      let total := jsFalsyOr (parseIntJS (jsTrim (p.2.getD 2 ""))) 0
      let percentage := jsFalsyOrStr (jsTrim (p.2.getD 3 ""))
        (if total ≠ 0 then toFixed2Of (attended * 100) total ++ "%" else "0%")
      acc ++ [⟨jsTrim (p.2.getD 0 ""), attended, total, percentage⟩]
    else acc) []

/-- The two accumulated sums of line 384. -/
def sumAttended (subs : List AttSubject) : Int :=
  subs.foldl (fun a x => a + x.attended) 0

def sumTotal (subs : List AttSubject) : Int :=
  subs.foldl (fun a x => a + x.total) 0

/-- Line 385: the aggregate percentage over all subjects (`0%` for a
falsy aggregate total). -/
def attendanceOverall (subs : List AttSubject) : String :=
  if sumTotal subs ≠ 0 then toFixed2Of (sumAttended subs * 100) (sumTotal subs) ++ "%" else "0%"

structure AttendanceRecord where
  overall : String
  subjects : List AttSubject
  lastUpdated : String
deriving DecidableEq, Repr

/-- Lines 371-385: the attendance record; `now` stands for the
`new Date().toISOString()` timestamp. -/
def buildAttendance (rows : List (List String)) (now : String) : AttendanceRecord :=
  let subs := attendanceSubjects rows
  ⟨attendanceOverall subs, subs, now⟩

/-! ## Extraction engine: public-results route (lines 322-345) -/

structure ExamSubject where
  code : String
  name : String
  credits : String
  grade : String
  gradePoint : String
deriving DecidableEq, Repr

structure ExamResult where
  examName : String
  examDate : String
  sgpa : String
  cgpa : String
  subjects : List ExamSubject
deriving DecidableEq, Repr

/-- One element matched by the exam-container selector, carrying the
raw texts of its name/date/sgpa/cgpa sub-selections and the cell texts
of its rows. -/
structure ExamElem where
  examName : String
  examDate : String
  sgpa : String
  cgpa : String
  rows : List (List String)
deriving DecidableEq, Repr

/-- The document fetched from a results URL: the three raw candidate
texts for the student name (lines 325) and the exam containers. -/
structure ResultsDoc where
  nameA : String
  nameB : String
  nameC : String
  examElems : List ExamElem
deriving DecidableEq, Repr

structure ResultsRecord where
  registerNo : String
  studentName : String
  results : List ExamResult
  fetchedFrom : String
deriving DecidableEq, Repr

/-- Line 325: the student name, by the `||` chain over the three
candidate selections, defaulting to `Name not available`. -/
def studentNameOf (doc : ResultsDoc) : String :=
  jsFalsyOrStr (jsTrim doc.nameA)
    (jsFalsyOrStr (jsTrim doc.nameB)
      (jsFalsyOrStr (jsTrim doc.nameC) "Name not available"))

/-- Lines 336-342: rows with ≥ 3 cells yield subjects (cells 3 and 4
read with cheerio's empty-selection default); subjects with an empty
code or name are dropped. -/
def examSubjects (rows : List (List String)) : List ExamSubject :=
  rows.foldl (fun acc cells =>
    if 3 ≤ cells.length then
      let subj : ExamSubject :=
        ⟨jsTrim (cells.getD 0 ""), jsTrim (cells.getD 1 ""),
         jsFalsyOrStr (jsTrim (cells.getD 2 "")) "",
         jsFalsyOrStr (jsTrim (cells.getD 3 "")) "",
         jsFalsyOrStr (jsTrim (cells.getD 4 "")) ""⟩
      if subj.code ≠ "" && subj.name ≠ "" then acc ++ [subj] else acc
    else acc) []

/-- Lines 327-345: exam containers become exam results; an exam is kept
only when its name is non-empty and it has at least one subject. -/
def extractExams (elems : List ExamElem) : List ExamResult :=
  elems.foldl (fun acc el =>
    let exam : ExamResult :=
      ⟨jsTrim el.examName, jsTrim el.examDate,
       jsFalsyOrStr (jsTrim el.sgpa) "N/A", jsFalsyOrStr (jsTrim el.cgpa) "N/A",
       examSubjects el.rows⟩
    if exam.examName ≠ "" && exam.subjects ≠ [] then acc ++ [exam] else acc) []

/-! ## Extraction engine: announcements route (lines 404-421) -/

structure AnnLink where
  title : String
  url : String
deriving DecidableEq, Repr

/-- One candidate container: raw title/date/description texts and its
anchor elements as (href, visible text) pairs (`""` href for a missing
attribute). -/
structure AnnElem where
  title : String
  date : String
  description : String
  links : List (String × String)
deriving DecidableEq, Repr

structure Announcement where
  title : String
  date : String
  description : String
  links : List AnnLink
deriving DecidableEq, Repr

structure AnnouncementsRecord where
  announcements : List Announcement
  count : Nat
  lastUpdated : String
deriving DecidableEq, Repr

/-- Lines 411-417: keep links with a truthy href and visible text whose
lowercased text does not contain `read more`; relative hrefs are
resolved against the portal origin. -/
def annLinks (ls : List (String × String)) : List AnnLink :=
  ls.foldl (fun acc p =>
    let linkText := jsTrim p.2
    if p.1 ≠ "" && linkText ≠ "" &&
        !(containsSeq "read more".toList (jsToLower linkText).toList) then
      acc ++ [⟨linkText, if "http".toList.isPrefixOf p.1.toList then p.1 else "https://ktu.edu.in" ++ p.1⟩]
    else acc
    ) []

/-- Lines 406-421: containers with a non-empty title become
announcements; the record keeps the first 20 but reports the full
count. -/
def buildAnnouncements (elems : List AnnElem) (now : String) : AnnouncementsRecord :=
  let anns := elems.foldl (fun acc el =>
    let title := jsTrim el.title
    if title ≠ "" then
      acc ++ [⟨title, jsTrim el.date, jsTrim el.description, annLinks el.links⟩]
    else acc) []
  ⟨anns.take 20, anns.length, now⟩

/-! ## The resilient HTTP client: `makeRequest` (lines 48-66)

The environment is the outcome of each attempt: `att i` is what
`axiosInstance.request` returns or throws on the `i`-th attempt, were it
performed. A trace records the value returned by `makeRequest` (`none`
models JavaScript's `undefined`, produced only when the loop runs zero
times), how many attempts were performed, and the backoff delays awaited
in order (in milliseconds). -/

instance exceptDecEq {ε ρ : Type} [DecidableEq ε] [DecidableEq ρ] :
    DecidableEq (Except ε ρ) := fun a b =>
  match a, b with
  | .ok x, .ok y => if h : x = y then isTrue (by rw [h]) else isFalse (by simp [h])
  | .error x, .error y => if h : x = y then isTrue (by rw [h]) else isFalse (by simp [h])
  | .ok _, .error _ => isFalse (by simp)
  | .error _, .ok _ => isFalse (by simp)

structure ReqTrace (ε ρ : Type) where
  result : Option (Except ε ρ)
  attemptsMade : Nat
  delays : List Nat
deriving DecidableEq, Repr

/-- The retry loop of lines 53-65: return the first successful
response; rethrow the error of the last attempt; otherwise wait
`1000 * (i + 1)` ms and try again. -/
def makeRequestAux {ε ρ : Type} (att : Nat → Except ε ρ) (retries i : Nat)
    (ds : List Nat) : ReqTrace ε ρ :=
  if i < retries then
    match att i with
    | .ok r => ⟨some (.ok r), i + 1, ds⟩
    | .error e =>
      if i = retries - 1 then ⟨some (.error e), i + 1, ds⟩
      else makeRequestAux att retries (i + 1) (ds ++ [1000 * (i + 1)])
  else ⟨none, i, ds⟩
termination_by retries - i

/-- `makeRequest` with its default of 3 retries (every call site uses
the default). -/
def makeRequest {ε ρ : Type} (att : Nat → Except ε ρ) : ReqTrace ε ρ :=
  makeRequestAux att 3 0 []

/-! ## The cache store (NodeCache, line 22) and the four flows

The store is modelled per flow as an association list keyed by the
namespaced cache-key strings the routes build (in the server all flows
share one store, but the `profile_`/`results_`/`announcements` prefixes
keep their key spaces disjoint). Claims about behaviour "inside the TTL
window" are claims about an entry that is still present, so expiry
itself needs no clock. Each flow also emits a trace of the externally
visible operations it performs, in order. -/

def lookupCache {α : Type} (cache : List (String × α)) (k : String) : Option α :=
  (cache.find? (fun e => e.1 = k)).map (fun e => e.2)

def setCache {α : Type} (cache : List (String × α)) (k : String) (v : α) :
    List (String × α) :=
  (k, v) :: cache.filter (fun e => e.1 ≠ k)

inductive FlowOp
  | cacheRead (key : String)
  | cacheWrite (key : String)
  | fetch
deriving DecidableEq, Repr

/-! ### Profile flow (lines 127-285) -/

inductive ProfileOutcome
  | success (p : StudentProfile) (cached : Bool)
  | missingFields
  | invalidFormat
  | loginFailed
deriving DecidableEq, Repr

/-- Line 137. -/
def profileCacheKey (regNo : String) : String :=
  "profile_" ++ jsToUpper regNo

/-- Lines 127-285. `login` is what `loginStudent` resolves to: the
fully rendered profile-page document, or `none` for its `null` failure
signal. A cache hit answers the stored record plus a `cached: true`
marker (the marker is the `Bool` of `ProfileOutcome.success`; the
stored value itself is returned unchanged). -/
def profileFlow (cache : List (String × StudentProfile)) (regNo pw : String)
    (login : Option PageDoc) :
    ProfileOutcome × List (String × StudentProfile) × List FlowOp :=
  if regNo = "" || pw = "" then (.missingFields, cache, [])
  else if !(regnoValid regNo) then (.invalidFormat, cache, [])
  else
    let key := profileCacheKey regNo
    match lookupCache cache key with
    | some p => (.success p true, cache, [.cacheRead key])
    | none =>
      match login with
      | none => (.loginFailed, cache, [.cacheRead key, .fetch])
      | some doc =>
        let p := buildProfile regNo doc
        (.success p false, setCache cache key p, [.cacheRead key, .fetch, .cacheWrite key])

/-! ### Public-results flow (lines 288-355) -/

inductive ResultsOutcome
  | success (r : ResultsRecord) (cached : Bool)
  | invalidFormat
  | fetchFailed (registerNo : String)
  | noResults (registerNo : String) (studentName : String)
deriving DecidableEq, Repr

/-- Line 296 (an empty `examId` query value is falsy and also maps to
`all`). -/
def resultsCacheKey (regNo : String) (examId : Option String) : String :=
  "results_" ++ jsToUpper regNo ++ "_" ++ jsFalsyOrStr (examId.getD "") "all"

/-- Lines 300-304: the candidate URLs, tried in order. -/
def resultsUrls (regNo : String) : List String :=
  ["https://app.ktu.edu.in/public/results?registerNo=" ++ regNo,
   "https://results.ktu.edu.in/results?registerNo=" ++ regNo,
   "https://app.ktu.edu.in/public/studentresults/" ++ regNo]

/-- Lines 306-318: the first URL whose request came back as an HTTP 200
with a body wins; `none` in `fetched` covers both a thrown request and
a response failing that test. -/
def firstSuccess : List (String × Option ResultsDoc) → Option (String × ResultsDoc)
  | [] => none
  | (u, some d) :: _ => some (u, d)
  | (_, none) :: rest => firstSuccess rest

/-- Lines 288-355. `fetched` pairs up positionally with
`resultsUrls regNo`. -/
def resultsFlow (cache : List (String × ResultsRecord)) (regNo : String)
    (examId : Option String) (fetched : List (Option ResultsDoc)) :
    ResultsOutcome × List (String × ResultsRecord) × List FlowOp :=
  if regNo = "" || !(regnoValid regNo) then (.invalidFormat, cache, [])
  else
    let key := resultsCacheKey regNo examId
    match lookupCache cache key with
    | some r => (.success r true, cache, [.cacheRead key])
    | none =>
      match firstSuccess ((resultsUrls regNo).zip fetched) with
      | none => (.fetchFailed (jsToUpper regNo), cache, [.cacheRead key, .fetch])
      | some ud =>
        let exams := extractExams ud.2.examElems
        let name := studentNameOf ud.2
        if exams = [] then
          (.noResults (jsToUpper regNo) name, cache, [.cacheRead key, .fetch])
        else
          let r : ResultsRecord := ⟨jsToUpper regNo, name, exams, ud.1⟩
          (.success r false, setCache cache key r, [.cacheRead key, .fetch, .cacheWrite key])

/-! ### Attendance flow (lines 358-392) -/

/-- An outbound request as issued through `makeRequest`: its URL and
the value of the `Cookie` header after the caller's headers are merged
over the defaults (the defaults carry no `Cookie`, so the caller's
value is what goes out). -/
structure HttpReq where
  url : String
  cookie : Option String
deriving DecidableEq, Repr

inductive AttendanceOutcome
  | success (a : AttendanceRecord)
  | missingFields
  | invalidFormat
  | loginFailed
  | emptyResponse
deriving DecidableEq, Repr

/-- Lines 358-392. `login` is `loginStudent`'s resolution: the fully
rendered HTML of the profile-details page as a string (`page.content()`,
line 107-109), or `none` for `null`. The value the route binds as
`sessionCookie` (line 364) is exactly that string, and it is sent as the
`Cookie` header of the attendance request (line 367); the fourth
component of the result is that issued request, when one is made.
`resp` is the attendance response body parsed into table rows, `none`
covering a missing/empty body. The flow performs no cache operation at
all; the store is threaded through untouched. -/
def attendanceFlow (cache : List (String × AttendanceRecord)) (regNo pw : String)
    (login : Option String) (resp : Option (List (List String))) (now : String) :
    AttendanceOutcome × List (String × AttendanceRecord) × List FlowOp × Option HttpReq :=
  if regNo = "" || pw = "" then (.missingFields, cache, [], none)
  else if !(regnoValid regNo) then (.invalidFormat, cache, [], none)
  else
    match login with
    | none => (.loginFailed, cache, [.fetch], none)
    | some sessionCookie =>
      let req : HttpReq := ⟨"https://app.ktu.edu.in/attendance.htm", some sessionCookie⟩
      match resp with
      | none => (.emptyResponse, cache, [.fetch, .fetch], some req)
      | some rows =>
        (.success (buildAttendance rows now), cache, [.fetch, .fetch], some req)

/-! ### Announcements flow (lines 395-428) -/

inductive AnnouncementsOutcome
  | success (r : AnnouncementsRecord) (cached : Bool)
  | emptyResponse
deriving DecidableEq, Repr

/-- Lines 395-428. `resp` is the fetched announcements page parsed into
candidate containers, `none` covering a missing/empty body. -/
def announcementsFlow (cache : List (String × AnnouncementsRecord))
    (resp : Option (List AnnElem)) (now : String) :
    AnnouncementsOutcome × List (String × AnnouncementsRecord) × List FlowOp :=
  let key := "announcements"
  match lookupCache cache key with
  | some r => (.success r true, cache, [.cacheRead key])
  | none =>
    match resp with
    | none => (.emptyResponse, cache, [.cacheRead key, .fetch])
    | some elems =>
      let r := buildAnnouncements elems now
      (.success r false, setCache cache key r, [.cacheRead key, .fetch, .cacheWrite key])

/-! ## Helper lemmas -/

/-- A push-style fold is a `filterMap`. -/
theorem foldl_append_filterMap {α β : Type} (g : α → Option β) (l : List α)
    (acc : List β) :
    l.foldl (fun a x => a ++ (g x).toList) acc = acc ++ l.filterMap g := by
  induction l generalizing acc with
  | nil => simp
  | cons hd tl ih =>
    simp only [List.foldl_cons, List.filterMap_cons]
    cases hg : g hd <;> simp [hg, ih]

theorem jsFalsyOrStr_empty (a : String) : jsFalsyOrStr a "" = a := by
  unfold jsFalsyOrStr
  split
  · simp [*]
  · rfl

theorem lookupCache_setCache_self {α : Type} (cache : List (String × α))
    (k : String) (v : α) : lookupCache (setCache cache k v) k = some v := by
  simp [lookupCache, setCache]

/-- `lookupCache` only returns stored values. -/
theorem lookupCache_mem {α : Type} (cache : List (String × α)) (k : String)
    (v : α) (h : lookupCache cache k = some v) : ∃ e ∈ cache, e.2 = v := by
  unfold lookupCache at h
  rcases Option.map_eq_some'.mp h with ⟨e, he, hev⟩
  exact ⟨e, List.mem_of_find?_eq_some he, hev⟩

/-! ## C4: derived percentage -/

/-- The row test of the activity-points breakdown, stated as an
option-valued row transformer (directly the spec's description of which
rows contribute a category/points pair). -/
def breakdownEntry (cells : List String) : Option BreakdownEntry :=
  if 2 ≤ cells.length then
    let key := jsTrim (cells.getD 0 "")
    let val := jsTrim (cells.getD 1 "")
    if key ≠ "" && val ≠ "" && !(testTotalCI key) then
      some ⟨key, jsFalsyOr (parseIntJS val) 0⟩
    else none
  else none

theorem activityBreakdown_eq (rows : List (List String)) :
    activityBreakdown rows = rows.filterMap breakdownEntry := by
  unfold activityBreakdown
  have hb : (fun (acc : List BreakdownEntry) (cells : List String) =>
      if 2 ≤ cells.length then
        let key := jsTrim (cells.getD 0 "")
        let val := jsTrim (cells.getD 1 "")
        if key ≠ "" && val ≠ "" && !(testTotalCI key) then
          acc ++ [⟨key, jsFalsyOr (parseIntJS val) 0⟩]
        else acc
      else acc) =
      (fun acc cells => acc ++ (breakdownEntry cells).toList) := by
    funext acc cells
    unfold breakdownEntry
    split
    · dsimp only
      split
      · rfl
      · simp
    · simp
  rw [hb, foldl_append_filterMap]
  simp

/-- C4: `academicInfo.percentage` is derived, never scraped: whenever
the extracted cgpa string parses as a finite number `c = m / 10^s`, the
percentage is `(c*10 - 2.5)` (that is, `(20m - 5·10^s) / (2·10^s)`)
formatted to 2 decimals with a trailing `%`; cgpa `"8.50"` gives
`"82.50%"`; an empty or non-numeric cgpa leaves the percentage `""`. -/
theorem C4_percentage_derived (cgpa sgpaText : String) :
    (parseFloatJS cgpa = none → (academicInfoOf cgpa sgpaText).percentage = "") ∧
    (∀ m s, parseFloatJS cgpa = some (m, s) →
      (academicInfoOf cgpa sgpaText).percentage =
        toFixed2Of (20 * m - 5 * (10 : Int) ^ s) (2 * (10 : Int) ^ s) ++ "%") ∧
    (academicInfoOf "8.50" "").percentage = "82.50%" ∧
    (academicInfoOf "" "").percentage = "" ∧
    (academicInfoOf "N/A" "").percentage = "" := by
  refine ⟨?_, ?_, by decide, by decide, by decide⟩
  · intro h
    simp [academicInfoOf, jsFalsyOrStr_empty, h]
  · intro m s h
    simp [academicInfoOf, jsFalsyOrStr_empty, h]

/-- C4 witness: the general derivation rule applied to the concrete
cgpa `"8.50"`, i.e. `m = 850, s = 2`. -/
theorem C4_percentage_witness :
    (academicInfoOf "8.50" "x").percentage =
      toFixed2Of (20 * 850 - 5 * (10 : Int) ^ 2) (2 * (10 : Int) ^ 2) ++ "%" :=
  (C4_percentage_derived "8.50" "x").2.1 850 2 (by decide)

/-! ## C5: activity points

The claim says the total falls back to the sum of breakdown points
*exactly when* the last cell is unparseable. The source computes
`parseInt(totalPointsText) || sum`, and JavaScript's `||` also takes the
fallback when the parse result is the falsy number `0`: a table whose
total row reads `0` is parseable, yet the served total is the breakdown
sum, not `0`. -/

/-- C5 counterexample: in `[["NSS","60"],["Total","0"]]` the last
cell `"0"` parses as the integer 0, so the claim as stated requires
`total = "0"`; the code serves the breakdown sum `"60"` instead. -/
theorem C5_total_counterexample :
    parseIntJS (lastCellText [["NSS", "60"], ["Total", "0"]]) = some 0 ∧
    (activityPointsOf [["NSS", "60"], ["Total", "0"]]).total = "60" ∧
    (activityPointsOf [["NSS", "60"], ["Total", "0"]]).total ≠ "0" := by
  refine ⟨by decide, by decide, by decide⟩

/-- Amended total rule: the last row's last cell parsed as an integer,
falling back to the sum of breakdown points exactly when that cell is
unparseable **or parses to the falsy value 0**. -/
def specActivityTotal (rows : List (List String)) : Int :=
  let sum := (rows.filterMap breakdownEntry).foldl (fun a b => a + b.points) 0
  match parseIntJS (lastCellText rows) with
  | some n => if n = 0 then sum else n
  | none => sum

theorem activityTotal_eq (rows : List (List String)) :
    activityTotal rows = specActivityTotal rows := by
  unfold activityTotal specActivityTotal jsFalsyOr
  rw [activityBreakdown_eq]

/-- C5 (amended): the breakdown consists, in document order, of the
rows with ≥ 2 cells, non-empty first and second cells and a first cell
not matching the case-insensitive total label, with points parsed as
integers (0 if unparseable); the total equals the last row's last cell
parsed as an integer, falling back to the sum of breakdown points when
that cell is unparseable *or parses to 0*; the status is `Completed`
exactly when the total reaches 100 and `Pending` exactly otherwise. -/
theorem C5_activity_amended (rows : List (List String)) :
    (activityPointsOf rows).breakdown = rows.filterMap breakdownEntry ∧
    (activityPointsOf rows).total = toString (specActivityTotal rows) ∧
    ((activityPointsOf rows).status = "Completed" ↔ 100 ≤ specActivityTotal rows) ∧
    ((activityPointsOf rows).status = "Pending" ↔ specActivityTotal rows < 100) := by
  refine ⟨activityBreakdown_eq rows, ?_, ?_, ?_⟩
  · simp [activityPointsOf, activityTotal_eq]
  · simp only [activityPointsOf, activityTotal_eq]
    split
    · simp [*]
    · simp only [String.reduceEq, false_iff, not_le]
      omega
  · simp only [activityPointsOf, activityTotal_eq]
    split
    · simp only [String.reduceEq, false_iff, not_lt]
      omega
    · simp only [true_iff]
      omega

/-! ## C6: attendance extraction and aggregation -/

/-- The spec's row rule for attendance, as an option-valued transformer
on an indexed row: every non-header row (index > 0) with ≥ 4 cells
yields one subject record, attended/total parsed as integers (0 when
unparseable), the percentage taken from the 4th cell's text when
non-empty and otherwise computed as `attended/total*100` to 2 decimals
with a trailing `%` (`0%` when the total is the falsy 0). -/
def attSubjectEntry (p : Nat × List String) : Option AttSubject :=
  if 4 ≤ p.2.length && 0 < p.1 then
    let attended := jsFalsyOr (parseIntJS (jsTrim (p.2.getD 1 ""))) 0
    let total := jsFalsyOr (parseIntJS (jsTrim (p.2.getD 2 ""))) 0
    some ⟨jsTrim (p.2.getD 0 ""), attended, total,
      jsFalsyOrStr (jsTrim (p.2.getD 3 ""))
        (if total ≠ 0 then toFixed2Of (attended * 100) total ++ "%" else "0%")⟩
  else none

theorem attendanceSubjects_eq (rows : List (List String)) :
    attendanceSubjects rows = rows.enum.filterMap attSubjectEntry := by
  unfold attendanceSubjects
  have hb : (fun (acc : List AttSubject) (p : Nat × List String) =>
      if 4 ≤ p.2.length && 0 < p.1 then
        let attended := jsFalsyOr (parseIntJS (jsTrim (p.2.getD 1 ""))) 0
        let total := jsFalsyOr (parseIntJS (jsTrim (p.2.getD 2 ""))) 0
        let percentage := jsFalsyOrStr (jsTrim (p.2.getD 3 ""))
          (if total ≠ 0 then toFixed2Of (attended * 100) total ++ "%" else "0%")
        acc ++ [⟨jsTrim (p.2.getD 0 ""), attended, total, percentage⟩]
      else acc) =
      (fun acc p => acc ++ (attSubjectEntry p).toList) := by
    funext acc p
    unfold attSubjectEntry
    split
    · rfl
    · simp
  rw [hb, foldl_append_filterMap]
  simp

/-- C6: each non-header attendance row with ≥ 4 cells yields one
subject record per the spec's row rule (`attSubjectEntry`), and when
the aggregate total is non-zero the overall percentage is the aggregate
ratio `Σattended / Σtotal * 100` to 2 decimals with a trailing `%`. -/
theorem C6_attendance_extraction (rows : List (List String)) (now : String)
    (h : sumTotal (attendanceSubjects rows) ≠ 0) :
    (buildAttendance rows now).subjects = rows.enum.filterMap attSubjectEntry ∧
    (buildAttendance rows now).overall =
      toFixed2Of (sumAttended (attendanceSubjects rows) * 100)
        (sumTotal (attendanceSubjects rows)) ++ "%" := by
  constructor
  · simpa [buildAttendance] using attendanceSubjects_eq rows
  · simp [buildAttendance, attendanceOverall, h]

/-- The spec's concrete attendance table: a header row and the subject
rows `(34, 40)` and `(30, 35)` with no scraped percentage cell. -/
def attRowsEx : List (List String) :=
  [["Subject", "Attended", "Total", "Percentage"],
   ["S1", "34", "40", ""],
   ["S2", "30", "35", ""]]

/-- C6 witness: on the concrete table the aggregate total is non-zero,
the theorem's ratio applies, and it evaluates to `85.33%`
(64/75 × 100 to 2 decimals). -/
theorem C6_attendance_witness :
    sumTotal (attendanceSubjects attRowsEx) ≠ 0 ∧
    (buildAttendance attRowsEx "t").overall =
      toFixed2Of (sumAttended (attendanceSubjects attRowsEx) * 100)
        (sumTotal (attendanceSubjects attRowsEx)) ++ "%" ∧
    (buildAttendance attRowsEx "t").overall = "85.33%" :=
  ⟨by decide, (C6_attendance_extraction attRowsEx "t" (by decide)).2, by decide⟩

/-! ## C2: the retry loop of `makeRequest` -/

theorem makeRequestAux_step {ε ρ : Type} (att : Nat → Except ε ρ)
    (retries i : Nat) (ds : List Nat) (h : i < retries) :
    makeRequestAux att retries i ds =
      match att i with
      | .ok r => ⟨some (.ok r), i + 1, ds⟩
      | .error e =>
        if i = retries - 1 then ⟨some (.error e), i + 1, ds⟩
        else makeRequestAux att retries (i + 1) (ds ++ [1000 * (i + 1)]) := by
  rw [makeRequestAux]
  simp [h]

theorem makeRequest_ok0 {ε ρ : Type} (att : Nat → Except ε ρ) (r : ρ)
    (ha : att 0 = .ok r) : makeRequest att = ⟨some (.ok r), 1, []⟩ := by
  unfold makeRequest
  rw [makeRequestAux_step att 3 0 [] (by omega), ha]

theorem makeRequest_ok1 {ε ρ : Type} (att : Nat → Except ε ρ) (e0 : ε) (r : ρ)
    (ha0 : att 0 = .error e0) (ha1 : att 1 = .ok r) :
    makeRequest att = ⟨some (.ok r), 2, [1000]⟩ := by
  unfold makeRequest
  rw [makeRequestAux_step att 3 0 [] (by omega), ha0]
  norm_num
  rw [makeRequestAux_step att 3 1 [1000] (by omega), ha1]

theorem makeRequest_ok2 {ε ρ : Type} (att : Nat → Except ε ρ) (e0 e1 : ε) (r : ρ)
    (ha0 : att 0 = .error e0) (ha1 : att 1 = .error e1) (ha2 : att 2 = .ok r) :
    makeRequest att = ⟨some (.ok r), 3, [1000, 2000]⟩ := by
  unfold makeRequest
  rw [makeRequestAux_step att 3 0 [] (by omega), ha0]
  norm_num
  rw [makeRequestAux_step att 3 1 [1000] (by omega), ha1]
  norm_num
  rw [makeRequestAux_step att 3 2 [1000, 2000] (by omega), ha2]

theorem makeRequest_err {ε ρ : Type} (att : Nat → Except ε ρ) (e0 e1 e2 : ε)
    (ha0 : att 0 = .error e0) (ha1 : att 1 = .error e1) (ha2 : att 2 = .error e2) :
    makeRequest att = ⟨some (.error e2), 3, [1000, 2000]⟩ := by
  unfold makeRequest
  rw [makeRequestAux_step att 3 0 [] (by omega), ha0]
  norm_num
  rw [makeRequestAux_step att 3 1 [1000] (by omega), ha1]
  norm_num
  rw [makeRequestAux_step att 3 2 [1000, 2000] (by omega), ha2]
  norm_num

/-- C2: at most 3 attempts; the first successful attempt `i < 3`
(everything before it having failed) ends the loop at once with that
response and with the linear backoff delays `1000·(j+1)` ms awaited
after each failed non-last attempt `j < i`; three consecutive failures
propagate the last error after delays of 1s and 2s. -/
theorem C2_makeRequest_retry {ε ρ : Type} (att : Nat → Except ε ρ) :
    (makeRequest att).attemptsMade ≤ 3 ∧
    (∀ i r, i < 3 → att i = .ok r → (∀ j, j < i → ∃ e, att j = .error e) →
      makeRequest att =
        ⟨some (.ok r), i + 1, (List.range i).map (fun j => 1000 * (j + 1))⟩) ∧
    (∀ e0 e1 e2, att 0 = .error e0 → att 1 = .error e1 → att 2 = .error e2 →
      makeRequest att = ⟨some (.error e2), 3, [1000, 2000]⟩) := by
  refine ⟨?_, ?_, ?_⟩
  · cases ha0 : att 0 with
    | ok r =>
      rw [makeRequest_ok0 att r ha0]
      norm_num
    | error e0 =>
      cases ha1 : att 1 with
      | ok r =>
        rw [makeRequest_ok1 att e0 r ha0 ha1]
        norm_num
      | error e1 =>
        cases ha2 : att 2 with
        | ok r => rw [makeRequest_ok2 att e0 e1 r ha0 ha1 ha2]
        | error e2 => rw [makeRequest_err att e0 e1 e2 ha0 ha1 ha2]
  · intro i r hi hok hprev
    interval_cases i
    · exact makeRequest_ok0 att r hok
    · obtain ⟨e0, he0⟩ := hprev 0 (by omega)
      exact makeRequest_ok1 att e0 r he0 hok
    · obtain ⟨e0, he0⟩ := hprev 0 (by omega)
      obtain ⟨e1, he1⟩ := hprev 1 (by omega)
      exact makeRequest_ok2 att e0 e1 r he0 he1 hok
  · intro e0 e1 e2 ha0 ha1 ha2
    exact makeRequest_err att e0 e1 e2 ha0 ha1 ha2

/-- The failure-failure-success environment of the spec's scenario. -/
def attFFS : Nat → Except Nat String :=
  fun i => if i < 2 then .error i else .ok "resp"

/-- C2 witness: on failure, failure, success exactly 3 attempts occur,
the third response is returned, and the delays awaited were 1s then
2s. -/
theorem C2_makeRequest_witness :
    makeRequest attFFS = ⟨some (.ok "resp"), 3, [1000, 2000]⟩ := by
  have h := (C2_makeRequest_retry attFFS).2.1 2 "resp" (by omega) (by decide)
    (fun j hj => ⟨j, by simp [attFFS, hj]⟩)
  simpa using h

/-! ## C1: the public-results flow never serves an empty result list -/

/-- The exam-container rule of lines 327-345as an option-valued
transformer: an exam is kept exactly when its trimmed name is non-empty
and its subject list is non-empty. -/
def examEntry (el : ExamElem) : Option ExamResult :=
  let exam : ExamResult :=
    ⟨jsTrim el.examName, jsTrim el.examDate,
     jsFalsyOrStr (jsTrim el.sgpa) "N/A", jsFalsyOrStr (jsTrim el.cgpa) "N/A",
     examSubjects el.rows⟩
  if exam.examName ≠ "" && exam.subjects ≠ [] then some exam else none

theorem extractExams_eq (elems : List ExamElem) :
    extractExams elems = elems.filterMap examEntry := by
  unfold extractExams
  have hb : (fun (acc : List ExamResult) (el : ExamElem) =>
      let exam : ExamResult :=
        ⟨jsTrim el.examName, jsTrim el.examDate,
         jsFalsyOrStr (jsTrim el.sgpa) "N/A", jsFalsyOrStr (jsTrim el.cgpa) "N/A",
         examSubjects el.rows⟩
      if exam.examName ≠ "" && exam.subjects ≠ [] then acc ++ [exam] else acc) =
      (fun acc el => acc ++ (examEntry el).toList) := by
    funext acc el
    unfold examEntry
    dsimp only
    split
    · rfl
    · simp
  rw [hb, foldl_append_filterMap]
  simp

/-- Every exam kept by the extractor has a non-empty name and at least
one subject. -/
theorem extractExams_good (elems : List ExamElem) :
    ∀ e ∈ extractExams elems, e.examName ≠ "" ∧ e.subjects ≠ [] := by
  intro e he
  rw [extractExams_eq] at he
  rcases List.mem_filterMap.mp he with ⟨el, _, hel⟩
  unfold examEntry at hel
  dsimp only at hel
  split at hel
  · cases hel
    simp_all
  · cases hel

/-- A results record fit to serve: at least one exam, each with at
least one subject. -/
def goodRecord (r : ResultsRecord) : Prop :=
  r.results ≠ [] ∧ ∀ e ∈ r.results, e.subjects ≠ []

/-- C1: provided every cached record satisfies the invariant (which the
same flow maintains, being the only writer), the public-results flow
answers either an error (invalid format, fetch failure, or one of the
two not-found responses) or a success record whose result list is
non-empty with every exam containing at least one subject. -/
theorem C1_results_never_empty (cache : List (String × ResultsRecord))
    (regNo : String) (examId : Option String) (fetched : List (Option ResultsDoc))
    (hc : ∀ p ∈ cache, goodRecord p.2) :
    ∀ r c, (resultsFlow cache regNo examId fetched).1 = .success r c →
      goodRecord r := by
  intro r c h
  unfold resultsFlow at h
  split at h
  · cases h
  · dsimp only at h
    cases hl : lookupCache cache (resultsCacheKey regNo examId) with
    | some r0 =>
      rw [hl] at h
      dsimp only at h
      obtain ⟨h1, h2⟩ := ResultsOutcome.success.inj h
      subst h1
      rcases lookupCache_mem cache _ r0 hl with ⟨e, he, he2⟩
      rw [← he2]
      exact hc e he
    | none =>
      rw [hl] at h
      dsimp only at h
      cases hf : firstSuccess ((resultsUrls regNo).zip fetched) with
      | none =>
        rw [hf] at h
        cases h
      | some ud =>
        rw [hf] at h
        dsimp only at h
        split at h
        · cases h
        · obtain ⟨h1, h2⟩ := ResultsOutcome.success.inj h
          subst h1
          refine ⟨by simpa [goodRecord] using (by assumption : ¬extractExams ud.2.examElems = []), ?_⟩
          intro e he
          exact (extractExams_good ud.2.examElems e (by simpa using he)).2

/-- A concrete fetched results page: one exam container with one
subject row. -/
def exDocC1 : ResultsDoc :=
  ⟨"", "", "",
   [⟨"Exam April 2024", "", "", "", [["CS101", "Intro", "4", "A", "9"]]⟩]⟩

/-- The record the flow serves for `exDocC1`. -/
def exRecC1 : ResultsRecord :=
  ⟨"ABC20CS001", "Name not available",
   [⟨"Exam April 2024", "", "N/A", "N/A",
     [⟨"CS101", "Intro", "4", "A", "9"⟩]⟩],
   "https://app.ktu.edu.in/public/results?registerNo=ABC20CS001"⟩

/-- C1 witness: with an empty cache and a first URL yielding
`exDocC1`, the flow serves `exRecC1`, and the theorem shows it
satisfies the non-emptiness invariant. -/
theorem C1_results_witness : goodRecord exRecC1 := by
  have h := C1_results_never_empty [] "ABC20CS001" none [some exDocC1, none, none]
    (by simp)
  exact h exRecC1 false (by decide)

/-! ## C3: profile cache idempotence -/

/-- C3: starting from a store with no entry for the identifier, a first
successful `FetchProfile` serves the built record with no cache marker
and stores it; a second call for the same identifier while the entry is
present (any password, even with no login outcome available) serves the
*same* record distinguished only by the `cached: true` marker, leaves
the store byte-for-byte unchanged, and the stored snapshot afterwards is
still exactly the record the first call stored. -/
theorem C3_profile_cache_idempotent (cache : List (String × StudentProfile))
    (regNo pw pw2 : String) (doc : PageDoc) (login2 : Option PageDoc)
    (hmiss : lookupCache cache (profileCacheKey regNo) = none)
    (hr : regNo ≠ "") (hp : pw ≠ "") (hp2 : pw2 ≠ "")
    (hv : regnoValid regNo = true) :
    profileFlow cache regNo pw (some doc) =
      (.success (buildProfile regNo doc) false,
       setCache cache (profileCacheKey regNo) (buildProfile regNo doc),
       [.cacheRead (profileCacheKey regNo), .fetch, .cacheWrite (profileCacheKey regNo)]) ∧
    profileFlow (setCache cache (profileCacheKey regNo) (buildProfile regNo doc))
        regNo pw2 login2 =
      (.success (buildProfile regNo doc) true,
       setCache cache (profileCacheKey regNo) (buildProfile regNo doc),
       [.cacheRead (profileCacheKey regNo)]) ∧
    lookupCache (setCache cache (profileCacheKey regNo) (buildProfile regNo doc))
        (profileCacheKey regNo) = some (buildProfile regNo doc) := by
  refine ⟨?_, ?_, lookupCache_setCache_self cache _ _⟩
  · simp [profileFlow, hr, hp, hv, hmiss]
  · simp [profileFlow, hr, hp2, hv, lookupCache_setCache_self]

/-- C3 witness: the concrete miss hypothesis holds for the empty store,
and the second call replays the stored record with the marker. -/
theorem C3_profile_witness :
    lookupCache ([] : List (String × StudentProfile)) (profileCacheKey "abc20cs001") = none ∧
    (profileFlow (setCache ([] : List (String × StudentProfile))
        (profileCacheKey "abc20cs001") (buildProfile "abc20cs001" emptyDoc))
        "abc20cs001" "y" none).1
      = .success (buildProfile "abc20cs001" emptyDoc) true := by
  refine ⟨by decide, ?_⟩
  have h := C3_profile_cache_idempotent [] "abc20cs001" "x" "y" emptyDoc none
    (by decide) (by decide) (by decide) (by decide) (by decide)
  rw [h.2.1]

/-! ## C7: what the attendance flow sends as its `Cookie` header

`loginStudent` (lines 75-119) resolves to `page.content()` — the fully
rendered HTML of the profile-details page — or `null`. The attendance
route binds that resolution as `sessionCookie` (line 364) and sends it
verbatim as the `Cookie` header (line 367). So the value sent as
`Cookie` is the rendered HTML document, not a session cookie: no cookie
value ever reaches the request. -/

/-- C7: for any rendered-HTML login resolution, the attendance request
goes out with `Cookie` equal to that entire HTML string; in particular,
at the concrete rendered page below, the header is the page itself. -/
theorem C7_cookie_is_rendered_html :
    (∀ (cache : List (String × AttendanceRecord)) (regNo pw html now : String)
       (resp : Option (List (List String))),
       regNo ≠ "" → pw ≠ "" → regnoValid regNo = true →
       (attendanceFlow cache regNo pw (some html) resp now).2.2.2 =
         some ⟨"https://app.ktu.edu.in/attendance.htm", some html⟩) ∧
    (attendanceFlow ([] : List (String × AttendanceRecord)) "ABC20CS001" "secret"
        (some "<html><body>student details page</body></html>")
        (some ([] : List (List String))) "now").2.2.2 =
      some ⟨"https://app.ktu.edu.in/attendance.htm",
            some "<html><body>student details page</body></html>"⟩ := by
  constructor
  · intro cache regNo pw html now resp hr hp hv
    cases resp <;> simp [attendanceFlow, hr, hp, hv]
  · exact (by decide)

/-- C7 witness: the general header equation applied at concrete
credentials and a concrete rendered page. -/
theorem C7_cookie_witness :
    (attendanceFlow ([] : List (String × AttendanceRecord)) "XYZ21EC042" "pw"
        (some "<html>profile</html>") none "t").2.2.2 =
      some ⟨"https://app.ktu.edu.in/attendance.htm", some "<html>profile</html>"⟩ :=
  (C7_cookie_is_rendered_html.1) [] "XYZ21EC042" "pw" "<html>profile</html>" "t" none
    (by decide) (by decide) (by decide)

/-! ## C8: cache discipline of the four flows

The attendance route (lines 358-392) contains no `cache.get` and no
`cache.set` at all, so the claim's "every flow checks the cache before
its expensive fetch" fails on it: below, a run of the attendance flow
that performs both of its expensive external calls has an operation
trace with no cache read (and no cache write) whatsoever. -/

/-- C8 counterexample: a successful attendance run's operation trace is
exactly two fetches — the flow fetched without ever consulting (or
writing) the cache. -/
theorem C8_cache_counterexample :
    (attendanceFlow ([] : List (String × AttendanceRecord)) "ABC20CS001" "pw"
        (some "<html>profile</html>") (some ([] : List (List String))) "now").2.2.1
      = [FlowOp.fetch, FlowOp.fetch] := by decide

/-- C8 (amended): the profile, public-results and announcements flows
check the cache before their expensive fetch (whenever a fetch appears
in the trace, the trace opens with the cache read of the flow's key),
write the cache only on a freshly successful fetch-and-parse, and leave
the store unchanged on every failure outcome; the attendance flow
performs no cache operation at all and leaves any store unchanged. -/
theorem C8_cache_discipline :
    (∀ (cache : List (String × StudentProfile)) (regNo pw : String)
       (login : Option PageDoc),
       (FlowOp.fetch ∈ (profileFlow cache regNo pw login).2.2 →
         (profileFlow cache regNo pw login).2.2.head? =
           some (.cacheRead (profileCacheKey regNo))) ∧
       (∀ k, FlowOp.cacheWrite k ∈ (profileFlow cache regNo pw login).2.2 →
         ∃ p, (profileFlow cache regNo pw login).1 = .success p false) ∧
       ((profileFlow cache regNo pw login).1 = .missingFields ∨
        (profileFlow cache regNo pw login).1 = .invalidFormat ∨
        (profileFlow cache regNo pw login).1 = .loginFailed →
         (profileFlow cache regNo pw login).2.1 = cache)) ∧
    (∀ (cache : List (String × ResultsRecord)) (regNo : String)
       (examId : Option String) (fetched : List (Option ResultsDoc)),
       (FlowOp.fetch ∈ (resultsFlow cache regNo examId fetched).2.2 →
         (resultsFlow cache regNo examId fetched).2.2.head? =
           some (.cacheRead (resultsCacheKey regNo examId))) ∧
       (∀ k, FlowOp.cacheWrite k ∈ (resultsFlow cache regNo examId fetched).2.2 →
         ∃ r, (resultsFlow cache regNo examId fetched).1 = .success r false) ∧
       ((resultsFlow cache regNo examId fetched).1 = .invalidFormat ∨
        (∃ u, (resultsFlow cache regNo examId fetched).1 = .fetchFailed u) ∨
        (∃ u n, (resultsFlow cache regNo examId fetched).1 = .noResults u n) →
         (resultsFlow cache regNo examId fetched).2.1 = cache)) ∧
    (∀ (cache : List (String × AnnouncementsRecord))
       (resp : Option (List AnnElem)) (now : String),
       (FlowOp.fetch ∈ (announcementsFlow cache resp now).2.2 →
         (announcementsFlow cache resp now).2.2.head? =
           some (.cacheRead "announcements")) ∧
       (∀ k, FlowOp.cacheWrite k ∈ (announcementsFlow cache resp now).2.2 →
         ∃ r, (announcementsFlow cache resp now).1 = .success r false) ∧
       ((announcementsFlow cache resp now).1 = .emptyResponse →
         (announcementsFlow cache resp now).2.1 = cache)) ∧
    (∀ (cache : List (String × AttendanceRecord)) (regNo pw : String)
       (login : Option String) (resp : Option (List (List String))) (now : String),
       (∀ k, FlowOp.cacheRead k ∉ (attendanceFlow cache regNo pw login resp now).2.2.1) ∧
       (∀ k, FlowOp.cacheWrite k ∉ (attendanceFlow cache regNo pw login resp now).2.2.1) ∧
       (attendanceFlow cache regNo pw login resp now).2.1 = cache) := by
  refine ⟨?_, ?_, ?_, ?_⟩
  · intro cache regNo pw login
    by_cases hr : regNo = ""
    · simp [profileFlow, hr]
    · by_cases hp : pw = ""
      · simp [profileFlow, hr, hp]
      · by_cases hv : regnoValid regNo
        · cases hl : lookupCache cache (profileCacheKey regNo) with
          | some p => simp [profileFlow, hr, hp, hv, hl]
          | none =>
            cases login with
            | none => simp [profileFlow, hr, hp, hv, hl]
            | some doc => simp [profileFlow, hr, hp, hv, hl]
        · simp [profileFlow, hr, hp, hv]
  · intro cache regNo examId fetched
    by_cases hr : regNo = ""
    · simp [resultsFlow, hr]
    · by_cases hv : regnoValid regNo
      · cases hl : lookupCache cache (resultsCacheKey regNo examId) with
        | some r => simp [resultsFlow, hr, hv, hl]
        | none =>
          cases hf : firstSuccess ((resultsUrls regNo).zip fetched) with
          | none => simp [resultsFlow, hr, hv, hl, hf]
          | some ud =>
            by_cases he : extractExams ud.2.examElems = []
            · simp [resultsFlow, hr, hv, hl, hf, he]
            · simp [resultsFlow, hr, hv, hl, hf, he]
      · simp [resultsFlow, hr, hv]
  · intro cache resp now
    cases hl : lookupCache cache "announcements" with
    | some r => simp [announcementsFlow, hl]
    | none =>
      cases resp with
      | none => simp [announcementsFlow, hl]
      | some elems => simp [announcementsFlow, hl]
  · intro cache regNo pw login resp now
    by_cases hr : regNo = ""
    · simp [attendanceFlow, hr]
    · by_cases hp : pw = ""
      · simp [attendanceFlow, hr, hp]
      · by_cases hv : regnoValid regNo
        · cases login with
          | none => simp [attendanceFlow, hr, hp, hv]
          | some html =>
            cases resp with
            | none => simp [attendanceFlow, hr, hp, hv]
            | some rows => simp [attendanceFlow, hr, hp, hv]
        · simp [attendanceFlow, hr, hp, hv]

/-- C8 witness: a failed profile login at a concrete input leaves the
(empty) store unchanged, by the discipline theorem's failure clause. -/
theorem C8_cache_witness :
    (profileFlow ([] : List (String × StudentProfile)) "ABC20CS001" "pw" none).2.1
      = [] :=
  (C8_cache_discipline.1 [] "ABC20CS001" "pw" none).2.2 (Or.inr (Or.inr (by decide)))

/-! ## C9: uppercase normalization of the register number -/

theorem charOfNat_toNat (n : Nat) (h : n < 55296) : (Char.ofNat n).toNat = n := by
  simp [Char.ofNat, Char.toNat]
  split
  · rfl
  · exact absurd (Or.inl h) (by assumption)

/-- `upChar` never produces a lowercase ASCII letter. -/
theorem upChar_not_lower (c : Char) :
    ¬(97 ≤ (upChar c).toNat ∧ (upChar c).toNat ≤ 122) := by
  unfold upChar
  split
  · rename_i h
    simp only [Bool.and_eq_true, decide_eq_true_eq] at h
    rw [charOfNat_toNat (c.toNat - 32) (by omega)]
    omega
  · rename_i h
    simp only [Bool.and_eq_true, decide_eq_true_eq, not_and, not_le] at h ⊢
    omega

theorem upChar_idem (c : Char) : upChar (upChar c) = upChar c := by
  have h := upChar_not_lower c
  conv_lhs => rw [upChar]
  split
  · rename_i hb
    simp only [Bool.and_eq_true, decide_eq_true_eq] at hb
    exact absurd hb h
  · rfl

theorem mk_toList (cs : List Char) : (String.mk cs).toList = cs := rfl

theorem jsToUpper_idem (s : String) : jsToUpper (jsToUpper s) = jsToUpper s := by
  unfold jsToUpper
  rw [mk_toList, List.map_map]
  exact congrArg String.mk (List.map_congr_left fun c _ => upChar_idem c)

theorem profileCacheKey_toUpper (r : String) :
    profileCacheKey (jsToUpper r) = profileCacheKey r := by
  unfold profileCacheKey
  rw [jsToUpper_idem]

theorem resultsCacheKey_toUpper (r : String) (examId : Option String) :
    resultsCacheKey (jsToUpper r) examId = resultsCacheKey r examId := by
  unfold resultsCacheKey
  rw [jsToUpper_idem]

/-- C9: the accepted register number is normalized to uppercase before
use: the uppercased form contains no lowercase ASCII letter, the
profile/results cache keys are invariant under pre-uppercasing the
input (so any accepted letter case maps to the same key), and the
`registerNo` field of every freshly served record — profile success,
results success, and both results not-found errors — is the uppercased
input. -/
theorem C9_uppercase_normalized (regNo pw : String) (doc : PageDoc)
    (examId : Option String) (cacheP : List (String × StudentProfile))
    (cacheR : List (String × ResultsRecord)) (fetched : List (Option ResultsDoc)) :
    (∀ c ∈ (jsToUpper regNo).toList, ¬(97 ≤ c.toNat ∧ c.toNat ≤ 122)) ∧
    profileCacheKey (jsToUpper regNo) = profileCacheKey regNo ∧
    resultsCacheKey (jsToUpper regNo) examId = resultsCacheKey regNo examId ∧
    (buildProfile regNo doc).registerNo = jsToUpper regNo ∧
    (∀ p, (profileFlow cacheP regNo pw (some doc)).1 = .success p false →
      p.registerNo = jsToUpper regNo) ∧
    (∀ r, (resultsFlow cacheR regNo examId fetched).1 = .success r false →
      r.registerNo = jsToUpper regNo) ∧
    (∀ u, (resultsFlow cacheR regNo examId fetched).1 = .fetchFailed u →
      u = jsToUpper regNo) ∧
    (∀ u n, (resultsFlow cacheR regNo examId fetched).1 = .noResults u n →
      u = jsToUpper regNo) := by
  refine ⟨?_, profileCacheKey_toUpper regNo, resultsCacheKey_toUpper regNo examId,
    by simp [buildProfile], ?_, ?_, ?_, ?_⟩
  · intro c hc
    rw [jsToUpper, mk_toList] at hc
    rcases List.mem_map.mp hc with ⟨c0, _, rfl⟩
    exact upChar_not_lower c0
  · intro p h
    by_cases hr : regNo = ""
    · simp [profileFlow, hr] at h
    · by_cases hp : pw = ""
      · simp [profileFlow, hr, hp] at h
      · by_cases hv : regnoValid regNo
        · cases hl : lookupCache cacheP (profileCacheKey regNo) with
          | some q =>
            simp [profileFlow, hr, hp, hv, hl] at h
          | none =>
            simp [profileFlow, hr, hp, hv, hl] at h
            rw [← h]
            simp [buildProfile]
        · simp [profileFlow, hr, hp, hv] at h
  · intro r h
    by_cases hr : regNo = ""
    · simp [resultsFlow, hr] at h
    · by_cases hv : regnoValid regNo
      · cases hl : lookupCache cacheR (resultsCacheKey regNo examId) with
        | some q => simp [resultsFlow, hr, hv, hl] at h
        | none =>
          cases hf : firstSuccess ((resultsUrls regNo).zip fetched) with
          | none => simp [resultsFlow, hr, hv, hl, hf] at h
          | some ud =>
            by_cases he : extractExams ud.2.examElems = []
            · simp [resultsFlow, hr, hv, hl, hf, he] at h
            · simp [resultsFlow, hr, hv, hl, hf, he] at h
              rw [← h]
      · simp [resultsFlow, hr, hv] at h
  · intro u h
    by_cases hr : regNo = ""
    · simp [resultsFlow, hr] at h
    · by_cases hv : regnoValid regNo
      · cases hl : lookupCache cacheR (resultsCacheKey regNo examId) with
        | some q => simp [resultsFlow, hr, hv, hl] at h
        | none =>
          cases hf : firstSuccess ((resultsUrls regNo).zip fetched) with
          | none =>
            simp [resultsFlow, hr, hv, hl, hf] at h
            exact h.symm
          | some ud =>
            by_cases he : extractExams ud.2.examElems = []
            · simp [resultsFlow, hr, hv, hl, hf, he] at h
            · simp [resultsFlow, hr, hv, hl, hf, he] at h
      · simp [resultsFlow, hr, hv] at h
  · intro u n h
    by_cases hr : regNo = ""
    · simp [resultsFlow, hr] at h
    · by_cases hv : regnoValid regNo
      · cases hl : lookupCache cacheR (resultsCacheKey regNo examId) with
        | some q => simp [resultsFlow, hr, hv, hl] at h
        | none =>
          cases hf : firstSuccess ((resultsUrls regNo).zip fetched) with
          | none => simp [resultsFlow, hr, hv, hl, hf] at h
          | some ud =>
            by_cases he : extractExams ud.2.examElems = []
            · simp [resultsFlow, hr, hv, hl, hf, he] at h
              exact h.1.symm
            · simp [resultsFlow, hr, hv, hl, hf, he] at h
      · simp [resultsFlow, hr, hv] at h

/-- C9 witness: lowercased input `abc20cs001` — the built profile's
`registerNo` is the uppercased form, and the not-found error of the
results flow carries the uppercased form `ABC20CS001`. -/
theorem C9_uppercase_witness :
    (buildProfile "abc20cs001" emptyDoc).registerNo = jsToUpper "abc20cs001" ∧
    "ABC20CS001" = jsToUpper "abc20cs001" :=
  ⟨(C9_uppercase_normalized "abc20cs001" "pw" emptyDoc none [] [] []).2.2.2.1,
   (C9_uppercase_normalized "abc20cs001" "pw" emptyDoc none [] [] []).2.2.2.2.2.2.1
     "ABC20CS001" (by decide)⟩

/-! ## C10: a profile title without parentheses -/

/-- Trimming only removes characters. -/
theorem mem_trimList {c : Char} {cs : List Char} (h : c ∈ trimList cs) : c ∈ cs := by
  unfold trimList at h
  rw [List.mem_reverse] at h
  have h2 := (List.dropWhile_sublist (l := (cs.dropWhile jsIsSpace).reverse)
    (p := jsIsSpace)).mem h
  rw [List.mem_reverse] at h2
  exact (List.dropWhile_sublist (l := cs) (p := jsIsSpace)).mem h2

theorem idxOfAux_eq_none {c : Char} {cs : List Char} (h : c ∉ cs) :
    idxOfAux c cs = none := by
  induction cs with
  | nil => rfl
  | cons d rest ih =>
    simp only [List.mem_cons, not_or] at h
    have hdc : ¬(d = c) := fun hd => h.1 hd.symm
    simp only [idxOfAux, if_neg hdc, ih h.2, Option.map_none']

theorem jsIndexOf_neg {s : String} {c : Char} (h : c ∉ s.toList) :
    jsIndexOf s c = -1 := by
  unfold jsIndexOf
  rw [idxOfAux_eq_none h]

/-- `substring` over two clamped-to-zero bounds is empty. -/
theorem jsSubstring_nonpos (s : String) {a b : Int} (ha : a ≤ 0) (hb : b ≤ 0) :
    jsSubstring s a b = "" := by
  unfold jsSubstring
  dsimp only
  have hlen : (0 : Int) ≤ (s.toList.length : Int) := Int.ofNat_nonneg _
  have h1 : min (max a 0) (s.toList.length : Int) = 0 := by omega
  have h2 : min (max b 0) (s.toList.length : Int) = 0 := by omega
  rw [h1, h2]
  rfl

/-- C10: when the first `.profile-title` text contains no parenthesis,
both `substring` windows collapse to the empty string, so the served
`personalInfo.name` and `personalInfo.admissionNo` are both `""` — the
unparenthesized title text is discarded entirely, and the (total)
extractor raises nothing. -/
theorem C10_unparenthesized_title (regNo : String) (doc : PageDoc)
    (h1 : '(' ∉ doc.profileTitle.toList) (h2 : ')' ∉ doc.profileTitle.toList) :
    (buildProfile regNo doc).personalInfo.name = "" ∧
    (buildProfile regNo doc).personalInfo.admissionNo = "" := by
  have ht1 : '(' ∉ (jsTrim doc.profileTitle).toList := by
    rw [jsTrim, mk_toList]
    exact fun hm => h1 (mem_trimList hm)
  have ht2 : ')' ∉ (jsTrim doc.profileTitle).toList := by
    rw [jsTrim, mk_toList]
    exact fun hm => h2 (mem_trimList hm)
  have hname : personalNameAdmission doc.profileTitle = ("", "") := by
    unfold personalNameAdmission
    dsimp only
    rw [jsIndexOf_neg ht1, jsIndexOf_neg ht2]
    rw [jsSubstring_nonpos _ (by omega) (by omega)]
    rw [show (-1 : Int) + 1 = 0 from rfl]
    rw [jsSubstring_nonpos _ (by omega) (by omega)]
    rfl
  simp [buildProfile, hname]

/-- C10 witness: the concrete title `John Doe` yields empty name and
admission number. -/
theorem C10_unparenthesized_witness :
    (buildProfile "ABC20CS001" { emptyDoc with profileTitle := "John Doe" }).personalInfo.name = "" ∧
    (buildProfile "ABC20CS001" { emptyDoc with profileTitle := "John Doe" }).personalInfo.admissionNo = "" :=
  C10_unparenthesized_title "ABC20CS001" { emptyDoc with profileTitle := "John Doe" }
    (by decide) (by decide)

end KTU
